import Mathlib

/-!
Verification of the Job-Search-Aggregator-App scraping and persistence core.

Shallow embedding of:
- `src/storage.py`: the `Job` record, the SQLite-backed row store, `save_job`
  (upsert keyed by `url`) and `update_job_status`.
- `src/scraper.py`: `is_location_match`, the generic and Playwright page
  parsers (`_scrape_job_page`), the per-site candidate-link collection, the
  USAJobs item normalization, the per-domain rate limiter `_rate_limit`, and
  the orchestrator `scrape_all_sites`.

Modelling conventions:
- SQLite rows are a Lean list of `Row`; `AUTOINCREMENT` ids come from a
  `nextId` counter.  `SELECT ... WHERE url = ?` is `List.find?`; `UPDATE ...
  WHERE url = ?` maps over all rows matching the url (the schema's UNIQUE
  constraint means at most one in practice; theorems carry that as a count
  hypothesis where needed).
- Python strings are Lean `String`; Python's `s[:n]` slicing is `strTake`
  (take the first `n` characters); Python's substring operator `in` is
  `strContains`; `str.lower` is `strLower`; `str.strip` is `strTrim`
  (both characterwise).  `REAL` match scores are modelled as `Int`: the
  verified operations only store, copy and compare them, never compute.
- BeautifulSoup / Playwright pages are association lists from CSS selector to
  the text of the first matching (visible) element; a selector absent from
  the list models `select_one` / `locator(...).first` finding nothing.
- Wall-clock time for the rate limiter is a rational number threaded through
  explicitly; `time.sleep(d)` advances it by `d`.
- Generators are modelled as the list of values they yield; a Python
  exception raised while scraping a site is modelled by the site's `fails`
  flag (the `try/except` in `scrape_all_sites` turns it into a logged skip).
-/

/-! ## String helpers (Python semantics) -/

/-- Check whether `needle` occurs at the front of `hay` (character lists). -/
def occursAtFront : List Char → List Char → Bool
  | [], _ => true
  | _ :: _, [] => false
  | a :: as, b :: bs => a == b && occursAtFront as bs

/-- Check whether `needle` occurs contiguously anywhere in `hay`. -/
def occursIn (needle : List Char) : List Char → Bool
  | [] => needle.isEmpty
  | c :: rest => occursAtFront needle (c :: rest) || occursIn needle rest

/-- Python's substring test `needle in hay`. -/
def strContains (hay needle : String) : Bool :=
  occursIn needle.data hay.data

/-- Python's slice `s[:n]`: the first `n` characters of `s`. -/
def strTake (s : String) (n : Nat) : String :=
  ⟨s.data.take n⟩

/-- Python's `str.lower`, characterwise (the inputs involved are ASCII). -/
def strLower (s : String) : String :=
  ⟨s.data.map Char.toLower⟩

/-- Python's `str.strip`: drop whitespace from both ends. -/
def strTrim (s : String) : String :=
  ⟨((s.data.dropWhile Char.isWhitespace).reverse.dropWhile Char.isWhitespace).reverse⟩

/-- Job dataclass of `storage.py` (`id` lives on stored rows, not here;
`created_at`/`updated_at` are database bookkeeping the claims do not touch). -/
structure Job where
  company : String := ""
  title : String := ""
  location : String := ""
  description : String := ""
  url : String := ""
  posted_date : Option String := none
  scraped_at : String := ""
  match_score : Option Int := none
  match_reasoning : Option String := none
  status : String := "new"
  notes : String := ""
  deriving Repr, DecidableEq

/-- One stored row of the `jobs` table. -/
structure Row where
  id : Nat
  company : String
  title : String
  location : String
  description : String
  url : String
  posted_date : Option String
  scraped_at : String
  match_score : Option Int
  match_reasoning : Option String
  status : String
  notes : String
  deriving Repr, DecidableEq

instance : Inhabited Row :=
  ⟨⟨0, "", "", "", "", "", none, "", none, none, "new", ""⟩⟩

/-- Database state: the stored rows plus the AUTOINCREMENT counter. -/
structure DB where
  rows : List Row
  nextId : Nat
  deriving Repr, DecidableEq

/-- Empty database, as produced by `init_db`. -/
def DB.empty : DB := ⟨[], 1⟩

/-- Number of stored rows whose `url` equals `u`. -/
def countUrl (db : DB) (u : String) : Nat :=
  db.rows.countP (fun r => r.url == u)

/-- Lookup `SELECT ... FROM jobs WHERE url = ?` (first matching row). -/
def findByUrl (db : DB) (u : String) : Option Row :=
  db.rows.find? (fun r => r.url == u)

/-- Overwrite of the scrapable columns performed by the UPDATE branch of
`save_job` on each row whose url matches. -/
def updateScrapable (job : Job) (r : Row) : Row :=
  if r.url == job.url then
    { r with
      company := job.company
      title := job.title
      location := job.location
      description := job.description
      posted_date := job.posted_date
      scraped_at := job.scraped_at }
  else r

/-- Fresh row built by the INSERT branch of `save_job`: every column comes
from the incoming record (match_score, match_reasoning, status, notes
included). -/
def insertRow (rid : Nat) (job : Job) : Row :=
  { id := rid
    company := job.company
    title := job.title
    location := job.location
    description := job.description
    url := job.url
    posted_date := job.posted_date
    scraped_at := job.scraped_at
    match_score := job.match_score
    match_reasoning := job.match_reasoning
    status := job.status
    notes := job.notes }

/-- Upsert `save_job` of `storage.py` (lines 86-128): if some row already has
the record's url, refresh that row's scrapable columns and return its id;
otherwise insert a new row carrying all of the record's fields.  The
function is total: there is no validation of `job.url`, empty included. -/
def save_job (db : DB) (job : Job) : DB × Nat :=
  match findByUrl db job.url with
  | some existing =>
      ({ db with rows := db.rows.map (updateScrapable job) }, existing.id)
  | none =>
      ({ rows := db.rows ++ [insertRow db.nextId job], nextId := db.nextId + 1 },
       db.nextId)

/-- Python truthiness of the optional `notes` argument of
`update_job_status`: `None` and `""` are falsy. -/
def notesTruthy : Option String → Bool
  | none => false
  | some s => s != ""

/-- Status update `update_job_status` of `storage.py` (lines 144-157): when
`notes` is truthy both columns are written, otherwise only `status`. -/
def update_job_status (db : DB) (job_id : Nat) (status : String)
    (notes : Option String) : DB :=
  if notesTruthy notes then
    { db with rows := db.rows.map (fun r =>
        if r.id == job_id then { r with status := status, notes := notes.getD "" } else r) }
  else
    { db with rows := db.rows.map (fun r =>
        if r.id == job_id then { r with status := status } else r) }

/-- Remote-indicator keywords of `is_location_match` (scraper.py line 35). -/
def remote_keywords : List String :=
  ["remote", "telework", "work from home", "wfh", "anywhere"]

/-- DC Metro Area keywords of `is_location_match` (scraper.py lines 40-52). -/
def dc_metro_keywords : List String :=
  ["washington", "dc", "d.c.",
   "virginia", " va", ",va", "arlington", "alexandria", "fairfax",
   "reston", "mclean", "tysons", "chantilly", "herndon", "vienna",
   "sterling", "manassas", "falls church",
   "maryland", " md", ",md", "bethesda", "rockville", "silver spring",
   "gaithersburg", "germantown", "college park", "bowie", "greenbelt",
   "largo", "fort washington", "suitland", "annapolis", "fort meade",
   "glen burnie", "severn", "columbia", "ellicott city", "laurel"]

/-- Location filter `is_location_match` of `scraper.py` (lines 27-56):
empty is eligible, then case-insensitive substring match against the remote
keywords, then against the DC-metro keywords, else ineligible. -/
def is_location_match (job_location : String) : Bool :=
  if job_location == "" then true
  else
    let location_lower := strLower job_location
    if remote_keywords.any (fun k => strContains location_lower k) then true
    else if dc_metro_keywords.any (fun k => strContains location_lower k) then true
    else false

/-- Parsed markup of one fetched page: an association list from CSS selector
to the text content of the first matching (for Playwright: visible) element.
A selector with no entry models `select_one` returning `None`, respectively
`locator(sel).first` not being visible. -/
structure Page where
  sel : List (String × String)
  deriving Repr, DecidableEq

/-- Text of the first element matching `s` on the page, when any. -/
def Page.select (p : Page) (s : String) : Option String :=
  (p.sel.find? (fun q => q.1 == s)).map (fun q => q.2)

/-- Title selector chain of `GenericCareerPageScraper._scrape_job_page`. -/
def generic_title_selectors : List String :=
  ["h1", ".job-title", ".position-title", "[class*=\"title\"]"]

/-- Description selector chain of `GenericCareerPageScraper._scrape_job_page`. -/
def generic_description_selectors : List String :=
  [".job-description", ".description", "[class*=\"description\"]", "article", "main"]

/-- Location selector chain of `GenericCareerPageScraper._scrape_job_page`. -/
def generic_location_selectors : List String :=
  [".location", "[class*=\"location\"]", "[class*=\"Location\"]"]

/-- Field loop of the generic parser: take the text of the FIRST selector
that matches any element at all (the loop breaks on `if elem:` before
looking at the text, so an empty text still wins). -/
def firstElemText (p : Page) : List String → Option String
  | [] => none
  | s :: rest =>
    match p.select s with
    | some t => some t
    | none => firstElemText p rest

/-- Page parser `GenericCareerPageScraper._scrape_job_page` (scraper.py lines
212-252).  `page = none` models `fetch_page` returning `None`.  The
description is truncated with `[:5000]` at extraction time; a falsy
(missing or empty) title yields no record; missing location/description
default to `""` via `or ""`. -/
def generic_scrape_job_page (page : Option Page) (url company now : String) :
    Option Job :=
  match page with
  | none => none
  | some p =>
    let title := firstElemText p generic_title_selectors
    let description := (firstElemText p generic_description_selectors).map
      (fun t => strTake t 5000)
    let location := firstElemText p generic_location_selectors
    match title with
    | none => none
    | some t =>
      if t == "" then none
      else some
        { company := company
          title := t
          location := location.getD ""
          description := description.getD ""
          url := url
          scraped_at := now }

/-- Selector rule sets of `PlaywrightScraper.ATS_SELECTORS`, already split on
`", "` as `_scrape_job_page` does. -/
structure Selectors where
  title : List String
  location : List String
  description : List String
  deriving Repr, DecidableEq

/-- Workday entry of `ATS_SELECTORS` (job_list selectors are used by
`scrape_site`, not by the page parser, and are omitted here). -/
def workday_selectors : Selectors :=
  { title := ["h1", "h2", ".job-title", "[class*=\"title\"]"]
    location := ["[data-automation-id=\"locations\"]", ".css-129m7dg", "[class*=\"location\"]"]
    description := ["[data-automation-id=\"jobPostingDescription\"]", ".css-psnqcr",
      "[class*=\"description\"]", "article", "main"] }

/-- Generic entry of `ATS_SELECTORS`. -/
def generic_ats_selectors : Selectors :=
  { title := ["h1", "h2", ".job-title", "[class*=\"title\"]"]
    location := ["[class*=\"location\"]", "[class*=\"Location\"]"]
    description := ["[class*=\"description\"]", "article", "main"] }

/-- iCIMS entry of `ATS_SELECTORS`. -/
def icims_selectors : Selectors :=
  { title := ["h1", "h2", ".iCIMS_Header h1", ".job-title"]
    location := [".iCIMS_JobHeaderLocation", ".job-location", "[class*=\"location\"]"]
    description := [".iCIMS_JobContent", ".job-description", "[class*=\"description\"]", "article"] }

/-- Avature entry of `ATS_SELECTORS`. -/
def avature_selectors : Selectors :=
  { title := ["h2", ".title", "h1"]
    location := ["[class*=\"location\"]", "[class*=\"Location\"]"]
    description := ["[class*=\"description\"]", ".content", "article", "main"] }

/-- Lookup `ATS_SELECTORS.get(site_type, ATS_SELECTORS['generic'])`. -/
def ats_selectors_for (site_type : String) : Selectors :=
  if site_type == "workday" then workday_selectors
  else if site_type == "icims" then icims_selectors
  else if site_type == "avature" then avature_selectors
  else generic_ats_selectors

/-- Title loop of `PlaywrightScraper._scrape_job_page`: the stripped text of
the first visible selector whose stripped text is non-empty AND longer than
3 characters; an noncredible text falls through to the next selector. -/
def pwTitle (p : Page) : List String → Option String
  | [] => none
  | s :: rest =>
    match p.select s with
    | some raw =>
      let t := strTrim raw
      if t != "" && decide (t.length > 3) then some t else pwTitle p rest
    | none => pwTitle p rest

/-- Location loop of `PlaywrightScraper._scrape_job_page`: the stripped text
of the first visible selector whose stripped text is non-empty. -/
def pwLocation (p : Page) : List String → Option String
  | [] => none
  | s :: rest =>
    match p.select s with
    | some raw =>
      let t := strTrim raw
      if t != "" then some t else pwLocation p rest
    | none => pwLocation p rest

/-- Description loop of `PlaywrightScraper._scrape_job_page`: the raw text of
the first visible selector whose text is non-empty and longer than 50
characters, truncated to 5000 characters. -/
def pwDescription (p : Page) : List String → Option String
  | [] => none
  | s :: rest =>
    match p.select s with
    | some t =>
      if t != "" && decide (t.length > 50) then some (strTake t 5000)
      else pwDescription p rest
    | none => pwDescription p rest

/-- Page parser `PlaywrightScraper._scrape_job_page` (scraper.py lines
483-548).  `page = none` models `page.goto` raising (caught, returns
`None`).  No title means no record; location and description default to
`""`. -/
def pw_scrape_job_page (page : Option Page) (url company now : String)
    (sels : Selectors) : Option Job :=
  match page with
  | none => none
  | some p =>
    match pwTitle p sels.title with
    | none => none
    | some t =>
      some
        { company := company
          title := t
          location := (pwLocation p sels.location).getD ""
          description := (pwDescription p sels.description).getD ""
          url := url
          scraped_at := now }

/-- Extraction contract of spec section 4.3, stated generically: given per
selector an extraction outcome and a credibility predicate, return the
value of the FIRST selector that yields credible text (an noncredible
yield falls through to the next selector). -/
def spec_first (extract : String → Option String) (credible : String → Bool) :
    List String → Option String
  | [] => none
  | s :: rest =>
    match extract s with
    | some t => if credible t then some t else spec_first extract credible rest
    | none => spec_first extract credible rest

/-- Relevant fields of one `MatchedObjectDescriptor` item returned by the
USAJobs search API. -/
structure USAJobsItem where
  positionTitle : String
  positionLocationDisplay : String
  jobSummary : String
  positionURI : String
  publicationStartDate : String
  deriving Repr, DecidableEq

/-- Per-item normalization of `USAJobsScraper.search` (scraper.py lines
149-159): the yielded `Job` copies `JobSummary` into `description` verbatim,
with no truncation. -/
def usajobs_item_job (now : String) (item : USAJobsItem) : Job :=
  { company := "US Federal Government"
    title := item.positionTitle
    location := item.positionLocationDisplay
    description := item.jobSummary
    url := item.positionURI
    posted_date := some item.publicationStartDate
    scraped_at := now }

/-- Regex alternatives of `GenericCareerPageScraper.JOB_LINK_PATTERNS`, each
regex unrolled into the finite set of substrings it can match (the patterns
use only literal text, `[s]?` and `[-_]?`); matching is case-insensitive
(`re.IGNORECASE`), modelled by lowering the href. -/
def job_link_pattern_alternatives : List (List String) :=
  [["/job/", "/jobs/"],
   ["/career/", "/careers/"],
   ["/position/", "/positions/"],
   ["/opening/", "/openings/"],
   ["/requisition/"],
   ["jobid=", "job-id=", "job_id="],
   ["reqid=", "req-id=", "req_id="]]

/-- Test `re.search(pattern, href, re.IGNORECASE)` for any of the patterns. -/
def matchesJobPattern (href : String) : Bool :=
  job_link_pattern_alternatives.any
    (fun alts => alts.any (fun pat => strContains (strLower href) pat))

/-- Link-collection loop of `GenericCareerPageScraper.scrape_site` (scraper.py
lines 193-202): pattern-matching hrefs are appended in discovery order,
skipping any href already collected.  Hrefs are modelled as already absolute
(`urljoin` is the identity on absolute URLs). -/
def generic_collect_links (hrefs : List String) : List String :=
  hrefs.foldl
    (fun acc h =>
      if matchesJobPattern h then (if h ∈ acc then acc else acc ++ [h]) else acc)
    []

/-- Social-network hosts skipped by `PlaywrightScraper.scrape_site`. -/
def social_patterns : List String :=
  ["facebook.com", "twitter.com", "linkedin.com", "instagram.com", "youtube.com"]

/-- Job URL substrings accepted by `PlaywrightScraper.scrape_site`. -/
def pw_job_patterns : List String :=
  ["/job/", "/jobs/", "jobid=", "jobdetail", "requisition", "/position/",
   "/opening/", "folderdetail"]

/-- List-page substrings excluded by `PlaywrightScraper.scrape_site`. -/
def pw_list_page_patterns : List String :=
  ["/search", "offset=", "page=", "results", "searchjobs", "login", "referral",
   "applicationmethods"]

/-- Link-collection loop of `PlaywrightScraper.scrape_site` (scraper.py lines
433-466): skip social links, keep job-looking non-list-page links not yet
collected, and break out of the whole loop once 30 links are collected. -/
def pw_collect_links (acc : List String) : List String → List String
  | [] => acc
  | h :: rest =>
    if social_patterns.any (fun pat => strContains (strLower h) pat) then
      pw_collect_links acc rest
    else if pw_job_patterns.any (fun pat => strContains (strLower h) pat)
        && !(pw_list_page_patterns.any (fun pat => strContains (strLower h) pat))
        && !(acc.contains h) then
      let acc2 := acc ++ [h]
      if acc2.length ≥ 30 then acc2 else pw_collect_links acc2 rest
    else
      pw_collect_links acc rest

/-- One configured source as the orchestrator sees it, together with the
environment the scrape of that source encounters: the anchor hrefs found on
its listing page (`none` when the listing fetch fails), the detail pages
behind each URL (a URL with no entry models a failed detail fetch) and
whether scraping the source raises an exception (modelled as raising before
any job is yielded; the orchestrator's `try/except` is what is under test). -/
structure Site where
  name : String
  site_type : String
  hrefs : Option (List String)
  pages : List (String × Page)
  fails : Bool
  deriving Repr, DecidableEq

/-- Detail page stored for `u`, when its fetch succeeds. -/
def pageAt (pages : List (String × Page)) (u : String) : Option Page :=
  (pages.find? (fun q => q.1 == u)).map (fun q => q.2)

/-- Detail URLs fetched by `GenericCareerPageScraper.scrape_site`: the
deduplicated candidate links, capped at the first 20 (`job_links[:20]`). -/
def generic_site_fetches (s : Site) : List String :=
  match s.hrefs with
  | none => []
  | some hs => (generic_collect_links hs).take 20

/-- Jobs yielded by `GenericCareerPageScraper.scrape_site` (scraper.py lines
179-210): parse each fetched detail page, dropping pages with no record. -/
def generic_site_jobs (now : String) (s : Site) : List Job :=
  (generic_site_fetches s).filterMap
    (fun u => generic_scrape_job_page (pageAt s.pages u) u s.name now)

/-- Detail URLs fetched by `PlaywrightScraper.scrape_site`: collected links
(cap 30 at collection), capped at the first 20 (`job_links[:20]`). -/
def pw_site_fetches (s : Site) : List String :=
  match s.hrefs with
  | none => []
  | some hs => (pw_collect_links [] hs).take 20

/-- Jobs yielded by `PlaywrightScraper.scrape_site` (scraper.py lines
347-481). -/
def pw_site_jobs (now : String) (s : Site) : List Job :=
  (pw_site_fetches s).filterMap
    (fun u => pw_scrape_job_page (pageAt s.pages u) u s.name now
      (ats_selectors_for s.site_type))

/-- Site types routed to Playwright by `scrape_all_sites` (scraper.py line
564). -/
def js_heavy_types : List String :=
  ["workday", "icims", "greenhouse", "lever", "avature"]

/-- Scraper dispatch of the `scrape_all_sites` loop body: Playwright for
JS-heavy types when available, otherwise the generic scraper. -/
def site_raw_jobs (now : String) (pw_available : Bool) (s : Site) : List Job :=
  if js_heavy_types.contains s.site_type && pw_available then pw_site_jobs now s
  else generic_site_jobs now s

/-- Detail URLs fetched for one site under the same dispatch. -/
def site_fetches (pw_available : Bool) (s : Site) : List String :=
  if s.fails then []
  else if js_heavy_types.contains s.site_type && pw_available then pw_site_fetches s
  else generic_site_fetches s

/-- Jobs one site contributes to the run: nothing when its scrape raises
(the exception is caught), otherwise its scraped jobs filtered by
`is_location_match`. -/
def site_contribution (now : String) (pw_available : Bool) (s : Site) : List Job :=
  if s.fails then []
  else (site_raw_jobs now pw_available s).filter (fun j => is_location_match j.location)

/-- Orchestrator `scrape_all_sites` of `scraper.py` (lines 551-586): iterate
the configured sites in order; yield each site's location-eligible jobs; a
site whose scrape raises is caught, its name logged, and the loop continues.
Returns (yielded jobs in order, error log).  There is no cross-site seen-URL
set and no global cap in this function. -/
def scrape_all_sites (now : String) (pw_available : Bool) (sites : List Site) :
    List Job × List String :=
  sites.foldl
    (fun acc s =>
      if s.fails then (acc.1, acc.2 ++ [s.name])
      else (acc.1 ++ site_contribution now pw_available s, acc.2))
    ([], [])

/-- Detail URLs fetched across a whole run. -/
def run_fetches (pw_available : Bool) (sites : List Site) : List String :=
  (sites.map (site_fetches pw_available)).flatten

/-- Configured delay `REQUEST_DELAY` of `config.py` (2.0 seconds), as an
exact rational. -/
def REQUEST_DELAY : ℚ := 2

/-- Lookup of `self.last_request_time[domain]`. -/
def lookupTime (m : List (String × ℚ)) (d : String) : Option ℚ :=
  (m.find? (fun q => q.1 == d)).map (fun q => q.2)

/-- Assignment `self.last_request_time[domain] = t`: replace the entry for
`d` when present (entries are unique, as in a Python dict), else append. -/
def setTime : List (String × ℚ) → String → ℚ → List (String × ℚ)
  | [], d, t => [(d, t)]
  | q :: rest, d, t => if q.1 == d then (d, t) :: rest else q :: setTime rest d t

/-- Rate limiter `_rate_limit` of `JobScraper` (scraper.py lines 71-78) and,
identically, of `PlaywrightScraper` (lines 333-340).  `now` is the wall
clock on entry; the result's first component is the wall clock after the
conditional `time.sleep(REQUEST_DELAY - elapsed)`, which is also the value
recorded for the domain. -/
def rate_limit (now : ℚ) (m : List (String × ℚ)) (domain : String) :
    ℚ × List (String × ℚ) :=
  let exit_time :=
    match lookupTime m domain with
    | some t => if now - t < REQUEST_DELAY then t + REQUEST_DELAY else now
    | none => now
  (exit_time, setTime m domain exit_time)

/-- Row stored for a URL after an insert of `j1` followed by an update from
`j2` sharing the same url: scrapable columns from `j2` (most recent scrape),
match_score / match_reasoning / status / notes from `j1` (preserved by the
UPDATE branch). -/
def mergedRow (rid : Nat) (j1 j2 : Job) : Row :=
  { id := rid
    company := j2.company
    title := j2.title
    location := j2.location
    description := j2.description
    url := j1.url
    posted_date := j2.posted_date
    scraped_at := j2.scraped_at
    match_score := j1.match_score
    match_reasoning := j1.match_reasoning
    status := j1.status
    notes := j1.notes }

/-- First record of the C1 witness scenario: initial scrape observation,
built with the scraper defaults (no score, status "new", empty notes). -/
def jW1 : Job :=
  { company := "ACME", title := "Engineer I", location := "Reston, VA",
    description := "old text", url := "https://x.com/jobs/1", scraped_at := "t1" }

/-- Second record of the C1 witness scenario: a re-scrape of the same URL
with changed scrapable fields. -/
def jW2 : Job :=
  { company := "ACME Corp", title := "Engineer II", location := "Remote",
    description := "new text", url := "https://x.com/jobs/1", scraped_at := "t2" }

/-- First empty-URL record of the C9 witness scenario. -/
def jE1 : Job := { company := "A", title := "Analyst" }

/-- Second empty-URL record of the C9 witness scenario (a different posting,
also scraped without a URL). -/
def jE2 : Job := { company := "B", title := "Architect" }

/-- Page used to refute C5 as stated for the generic parser: its first title
selector (`h1`) matches an element whose text is too short to be credible
(2 characters), while a later selector holds a credible title. -/
def pgC5 : Page := ⟨[("h1", "ab"), (".job-title", "Senior Software Engineer")]⟩

/-- Description text of the C6 witness page (longer than 50 characters so
the Playwright parser accepts it). -/
def descText6 : String :=
  "Design, build and operate large scale cloud infrastructure for the mission."

/-- Page of the C6 witness scenario: parseable by both pipeline parsers. -/
def pgBoth : Page := ⟨[("h1", "Platform Engineer"), ("article", descText6)]⟩

/-- Job the generic parser produces from `pgBoth`. -/
def jG6 : Job :=
  { company := "ACME", title := "Platform Engineer", location := "",
    description := descText6, url := "https://x.com/jobs/2", scraped_at := "t0" }

/-- Job the Playwright parser produces from `pgBoth` with the generic ATS
selector set. -/
def jP6 : Job :=
  { company := "ACME", title := "Platform Engineer", location := "",
    description := descText6, url := "https://x.com/jobs/2", scraped_at := "t0" }

/-- JobSummary text of length 5001 used to refute C6 for the USAJobs path. -/
def longSummary : String := ⟨List.replicate 5001 'x'⟩

/-- Page of the orchestrator scenarios: parses to a job titled "Software
Engineer" with no location (empty location passes the filter). -/
def pgGood : Page := ⟨[("h1", "Software Engineer")]⟩

/-- First of two configured sources that both discover the same URL. -/
def siteA : Site :=
  { name := "Alpha"
    site_type := "custom"
    hrefs := some ["https://x.com/jobs/1"]
    pages := [("https://x.com/jobs/1", pgGood)]
    fails := false }

/-- Second source, same discovered URL as `siteA`. -/
def siteB : Site := { siteA with name := "Beta" }

/-- Configured source that discovers 20 distinct parseable job links. -/
def bigSite : Site :=
  { name := "Mega"
    site_type := "custom"
    hrefs := some ((List.range 20).map (fun j => "/jobs/" ++ toString j))
    pages := (List.range 20).map (fun j => ("/jobs/" ++ toString j, pgGood))
    fails := false }

/-- Source whose scrape raises an exception, placed between two healthy
sources in the C7 witness run. -/
def failSite : Site := { siteA with name := "Gamma", fails := true }

/-- Job parsed from `pgGood` under the company name of `siteB`. -/
def jobB : Job :=
  { company := "Beta", title := "Software Engineer", location := "",
    description := "", url := "https://x.com/jobs/1", scraped_at := "t0" }

/-! ## Theorems -/

theorem strTake_length_le (s : String) (n : Nat) : (strTake s n).length ≤ n := by
  show (s.data.take n).length ≤ n
  simp

/-! ## General list helpers -/

theorem map_eq_self_of_fix {α : Type} (f : α → α) (l : List α)
    (h : ∀ x ∈ l, f x = x) : l.map f = l := by
  induction l with
  | nil => rfl
  | cons a t ih =>
    simp only [List.map_cons, h a (by simp)]
    rw [ih (fun x hx => h x (by simp [hx]))]

theorem find?_none_of_countP_zero {α : Type} (p : α → Bool) (l : List α)
    (h : l.countP p = 0) : l.find? p = none := by
  rw [List.find?_eq_none]
  intro x hx hpx
  have := List.countP_eq_zero.mp h x hx
  exact this hpx

/-! ## C4: location filter -/

/-- C4 — Location filter correctness: `is_location_match` returns true
exactly when the location is empty, or its lowercase form contains a remote
keyword, or it contains a DC-metro keyword; the spec's literal table of six
inputs evaluates as claimed.  The embedding is a Lean function, so the
purity of the filter (same input, same output, no side effects) is inherited
from the model. -/
theorem c4_location_filter :
    (∀ s : String,
      is_location_match s = true ↔
        (s = "" ∨ remote_keywords.any (fun k => strContains (strLower s) k) = true
          ∨ dc_metro_keywords.any (fun k => strContains (strLower s) k) = true)) ∧
    is_location_match "Washington, DC" = true ∧
    is_location_match "Remote" = true ∧
    is_location_match "Arlington, VA" = true ∧
    is_location_match "San Francisco, CA" = false ∧
    is_location_match "" = true ∧
    is_location_match "Work From Home" = true := by
  refine ⟨fun s => ?_, by decide, by decide, by decide, by decide, by decide, by decide⟩
  by_cases h0 : s = ""
  · subst h0; simp [is_location_match]
  · by_cases h1 : remote_keywords.any (fun k => strContains (strLower s) k) = true
    · simp [is_location_match, h0, h1]
    · by_cases h2 : dc_metro_keywords.any (fun k => strContains (strLower s) k) = true
      · simp [is_location_match, h0, h1, h2]
      · simp [is_location_match, h0, h1, h2]

/-! ## C10: update_job_status frame property -/

/-- C10 — For a falsy `notes` argument (`None` or `""`), `update_job_status`
rewrites only the status column of the addressed row and leaves every stored
notes value unchanged; moreover no call of `update_job_status`, with any
arguments, can turn a non-empty stored notes value into the empty string,
because the notes column is only ever written with a truthy (hence
non-empty) value. -/
theorem c10_status_update_frame (db : DB) (job_id : Nat) (st : String)
    (nt : Option String) (hfalsy : nt = none ∨ nt = some "") :
    (update_job_status db job_id st nt).rows.map Row.notes = db.rows.map Row.notes ∧
    (update_job_status db job_id st nt).rows.map Row.status
      = db.rows.map (fun r => if r.id == job_id then st else r.status) ∧
    (∀ (st2 : String) (nt2 : Option String) (i : Nat) (r r2 : Row),
      db.rows[i]? = some r →
      (update_job_status db job_id st2 nt2).rows[i]? = some r2 →
      r2.notes = "" → r.notes = "") := by
  have hcond : notesTruthy nt = false := by
    rcases hfalsy with h | h <;> subst h <;> rfl
  refine ⟨?_, ?_, ?_⟩
  · simp only [update_job_status, hcond, Bool.false_eq_true, if_false, List.map_map]
    apply List.map_congr_left
    intro r _
    by_cases h : r.id == job_id <;> simp [h, Function.comp]
  · simp only [update_job_status, hcond, Bool.false_eq_true, if_false, List.map_map]
    apply List.map_congr_left
    intro r _
    by_cases h : r.id == job_id <;> simp [h, Function.comp]
  · intro st2 nt2 i r r2 hr hr2 hempty
    by_cases h2 : notesTruthy nt2 = true
    · have hrow : (update_job_status db job_id st2 nt2).rows
          = db.rows.map (fun r =>
              if r.id == job_id then { r with status := st2, notes := nt2.getD "" } else r) := by
        simp only [update_job_status, h2, if_true]
      rw [hrow, List.getElem?_map, hr] at hr2
      have hr2fun := Option.some.inj hr2
      by_cases hid : r.id == job_id
      · exfalso
        rw [← hr2fun] at hempty
        simp only [hid, if_true] at hempty
        cases nt2 with
        | none => exact absurd h2 (by simp [notesTruthy])
        | some s =>
          have hs : s ≠ "" := by simpa [notesTruthy] using h2
          exact hs (by simpa using hempty)
      · rw [← hr2fun] at hempty
        simpa [hid] using hempty
    · have h2f : notesTruthy nt2 = false := by simpa using h2
      have hrow : (update_job_status db job_id st2 nt2).rows
          = db.rows.map (fun r =>
              if r.id == job_id then { r with status := st2 } else r) := by
        simp only [update_job_status, h2f, Bool.false_eq_true, if_false]
      rw [hrow, List.getElem?_map, hr] at hr2
      have hr2fun := Option.some.inj hr2
      rw [← hr2fun] at hempty
      by_cases hid : r.id == job_id
      · simpa [hid] using hempty
      · simpa [hid] using hempty

/-- Witness for C10 at a concrete database: updating status with empty notes
keeps the stored notes `"important"` intact. -/
theorem c10_status_update_frame_witness :
    (update_job_status
        ⟨[⟨1, "", "", "", "", "u", none, "", none, none, "new", "important"⟩], 2⟩
        1 "reviewed" (some "")).rows.map Row.notes = ["important"] := by
  have h := c10_status_update_frame
    ⟨[⟨1, "", "", "", "", "u", none, "", none, none, "new", "important"⟩], 2⟩
    1 "reviewed" (some "") (Or.inr rfl)
  rw [h.1]
  rfl

/-! ## C1 and C9: save_job upsert -/

theorem find?_append_of_none {α : Type} (p : α → Bool) (l1 l2 : List α)
    (h : l1.find? p = none) : (l1 ++ l2).find? p = l2.find? p := by
  induction l1 with
  | nil => simp
  | cons a t ih =>
    cases hpa : p a with
    | true => simp [List.find?_cons, hpa] at h
    | false =>
      simp only [List.find?_cons, hpa] at h
      simp only [List.cons_append, List.find?_cons, hpa]
      exact ih h

theorem save_twice_upsert (db : DB) (j1 j2 : Job) (hurl : j2.url = j1.url)
    (h0 : countUrl db j1.url = 0) :
    (save_job (save_job db j1).1 j2).1.rows
      = db.rows ++ [mergedRow db.nextId j1 j2] ∧
    countUrl (save_job (save_job db j1).1 j2).1 j1.url = 1 ∧
    findByUrl (save_job (save_job db j1).1 j2).1 j1.url
      = some (mergedRow db.nextId j1 j2) := by
  have hnotmem : ∀ r ∈ db.rows, (r.url == j1.url) = false := by
    intro r hr
    have := List.countP_eq_zero.mp h0 r hr
    simpa using this
  have hfind1 : findByUrl db j1.url = none :=
    find?_none_of_countP_zero _ _ h0
  have hsave1 : (save_job db j1).1
      = ⟨db.rows ++ [insertRow db.nextId j1], db.nextId + 1⟩ := by
    simp [save_job, hfind1]
  have hfind2 : findByUrl (save_job db j1).1 j2.url
      = some (insertRow db.nextId j1) := by
    rw [hsave1, hurl]
    show (db.rows ++ [insertRow db.nextId j1]).find? (fun r => r.url == j1.url)
      = some (insertRow db.nextId j1)
    rw [find?_append_of_none _ _ _ hfind1]
    simp [insertRow]
  have hupd : updateScrapable j2 (insertRow db.nextId j1) = mergedRow db.nextId j1 j2 := by
    simp [updateScrapable, insertRow, mergedRow, hurl]
  have hmapid : db.rows.map (updateScrapable j2) = db.rows := by
    apply map_eq_self_of_fix
    intro r hr
    have : (r.url == j2.url) = false := by rw [hurl]; exact hnotmem r hr
    simp [updateScrapable, this]
  have hsave2gen : ∀ dbx : DB, findByUrl dbx j2.url = some (insertRow db.nextId j1) →
      (save_job dbx j2).1 = { dbx with rows := dbx.rows.map (updateScrapable j2) } := by
    intro dbx hf
    simp [save_job, hf]
  have hrows : (save_job (save_job db j1).1 j2).1.rows
      = db.rows ++ [mergedRow db.nextId j1 j2] := by
    rw [hsave2gen _ hfind2, hsave1]
    show (db.rows ++ [insertRow db.nextId j1]).map (updateScrapable j2)
      = db.rows ++ [mergedRow db.nextId j1 j2]
    rw [List.map_append, hmapid]
    simp [hupd]
  have h0x : db.rows.countP (fun r => r.url == j1.url) = 0 := h0
  refine ⟨hrows, ?_, ?_⟩
  · show ((save_job (save_job db j1).1 j2).1.rows).countP (fun r => r.url == j1.url) = 1
    rw [hrows, List.countP_append, h0x]
    simp [mergedRow]
  · show ((save_job (save_job db j1).1 j2).1.rows).find? (fun r => r.url == j1.url)
      = some (mergedRow db.nextId j1 j2)
    rw [hrows, find?_append_of_none _ _ _ hfind1]
    simp [mergedRow]

/-- C1 (amended) — Upsert contract of save_job: starting from a database with
no row for the record's URL, the first save inserts one new row; that row
carries the record's OWN match_score, status and notes (for scraper-produced
records these are the Job constructor defaults: absent, "new", "");
a second save with the same URL leaves exactly one stored row for it, whose
scrapable fields (company, title, location, description, posted_date,
scraped_at) come from the second record while match_score, status and notes
keep the first record's values. -/
theorem c1_save_job_upsert (db : DB) (j1 j2 : Job) (hurl : j2.url = j1.url)
    (h0 : countUrl db j1.url = 0) :
    (save_job db j1).1.rows = db.rows ++ [insertRow db.nextId j1] ∧
    (insertRow db.nextId j1).match_score = j1.match_score ∧
    (insertRow db.nextId j1).status = j1.status ∧
    (insertRow db.nextId j1).notes = j1.notes ∧
    countUrl (save_job (save_job db j1).1 j2).1 j1.url = 1 ∧
    findByUrl (save_job (save_job db j1).1 j2).1 j1.url
      = some (mergedRow db.nextId j1 j2) := by
  have hfind1 : findByUrl db j1.url = none :=
    find?_none_of_countP_zero _ _ h0
  have h := save_twice_upsert db j1 j2 hurl h0
  refine ⟨by simp [save_job, hfind1], rfl, rfl, rfl, h.2.1, h.2.2⟩

/-- Witness for C1: saving the same URL twice on an empty database leaves one
row whose title is the second record's and whose status/notes are the
first record's. -/
theorem c1_save_job_upsert_witness :
    countUrl (save_job (save_job DB.empty jW1).1 jW2).1 "https://x.com/jobs/1" = 1 ∧
    findByUrl (save_job (save_job DB.empty jW1).1 jW2).1 "https://x.com/jobs/1"
      = some (mergedRow 1 jW1 jW2) := by
  have h := c1_save_job_upsert DB.empty jW1 jW2 rfl rfl
  exact ⟨h.2.2.2.2.1, h.2.2.2.2.2⟩

/-- Counterexample for C1 as stated: a record with a fresh URL whose own
status is "applied" is inserted with status "applied", not the claimed
default "new" (the INSERT branch copies the record's match_score, status
and notes instead of defaulting them). -/
theorem c1_fresh_defaults_counterexample :
    ((save_job DB.empty
        { url := "https://x.com/jobs/7", status := "applied",
          notes := "call recruiter", match_score := some 88 }).1.rows.map Row.status
      = ["applied"]) ∧ ("applied" : String) ≠ "new" := by
  exact ⟨rfl, by decide⟩

/-- C9 — save_job performs no validation of `url`: two distinct records that
both carry the empty URL collapse into a single stored row (the second
upsert finds the first row via `url = ''` and updates it), with the second
record's scrapable fields and the first record's match_score/status/notes;
no error is raised (the embedding of save_job is a total function with no
error outcome, mirroring the absence of any check in the code). -/
theorem c9_empty_url_collapse (db : DB) (j1 j2 : Job) (h1 : j1.url = "")
    (h2 : j2.url = "") (_hne : j1 ≠ j2) (h0 : countUrl db "" = 0) :
    countUrl (save_job (save_job db j1).1 j2).1 "" = 1 ∧
    findByUrl (save_job (save_job db j1).1 j2).1 ""
      = some (mergedRow db.nextId j1 j2) := by
  have h := save_twice_upsert db j1 j2 (h2.trans h1.symm) (by rw [h1]; exact h0)
  constructor
  · have := h.2.1
    rw [h1] at this
    exact this
  · have := h.2.2
    rw [h1] at this
    exact this

/-- Witness for C9: two distinct url-less records collapse into one row. -/
theorem c9_empty_url_collapse_witness :
    countUrl (save_job (save_job DB.empty jE1).1 jE2).1 "" = 1 ∧
    findByUrl (save_job (save_job DB.empty jE1).1 jE2).1 ""
      = some (mergedRow 1 jE1 jE2) := by
  exact c9_empty_url_collapse DB.empty jE1 jE2 rfl rfl (by decide) rfl

/-! ## C5: parser first-match-wins -/

theorem pwTitle_spec (p : Page) (l : List String) :
    pwTitle p l = spec_first (fun s => (p.select s).map strTrim)
      (fun t => t != "" && decide (t.length > 3)) l := by
  induction l with
  | nil => rfl
  | cons s rest ih =>
    cases hsel : p.select s with
    | none => simp [pwTitle, spec_first, hsel, ih]
    | some raw => simp [pwTitle, spec_first, hsel, ih]

theorem pwLocation_spec (p : Page) (l : List String) :
    pwLocation p l = spec_first (fun s => (p.select s).map strTrim)
      (fun t => t != "") l := by
  induction l with
  | nil => rfl
  | cons s rest ih =>
    cases hsel : p.select s with
    | none => simp [pwLocation, spec_first, hsel, ih]
    | some raw => simp [pwLocation, spec_first, hsel, ih]

theorem pwDescription_spec (p : Page) (l : List String) :
    pwDescription p l = (spec_first (fun s => p.select s)
      (fun t => t != "" && decide (t.length > 50)) l).map (fun t => strTake t 5000) := by
  induction l with
  | nil => rfl
  | cons s rest ih =>
    cases hsel : p.select s with
    | none => simp [pwDescription, spec_first, hsel, ih]
    | some raw =>
      by_cases hc : (raw != "" && decide (raw.length > 50)) = true
      · simp [pwDescription, spec_first, hsel, hc]
      · simp [pwDescription, spec_first, hsel, hc, ih]

theorem firstElemText_spec (p : Page) (l : List String) :
    firstElemText p l = spec_first (fun s => p.select s) (fun _ => true) l := by
  induction l with
  | nil => rfl
  | cons s rest ih =>
    cases hsel : p.select s with
    | none => simp [firstElemText, spec_first, hsel, ih]
    | some raw => simp [firstElemText, spec_first, hsel]

/-- C5 (amended) — First-match-wins extraction: the Playwright parser takes,
per field, the value of the first selector yielding non-empty credible text
(title: stripped and longer than 3 characters; location: stripped and
non-empty; description: longer than 50 characters before truncation to
5000), and produces no record exactly when no selector yields a credible
title.  The generic HTML parser applies NO credibility thresholds: each
field takes the text of the first selector matching any element, even empty
text, and it produces no record exactly when the text so obtained for the
title is missing or empty. -/
theorem c5_parser_first_match :
    (∀ (p : Page) (l : List String),
      pwTitle p l = spec_first (fun s => (p.select s).map strTrim)
        (fun t => t != "" && decide (t.length > 3)) l) ∧
    (∀ (p : Page) (l : List String),
      pwLocation p l = spec_first (fun s => (p.select s).map strTrim)
        (fun t => t != "") l) ∧
    (∀ (p : Page) (l : List String),
      pwDescription p l = (spec_first (fun s => p.select s)
        (fun t => t != "" && decide (t.length > 50)) l).map (fun t => strTake t 5000)) ∧
    (∀ (p : Page) (url c now : String) (sels : Selectors),
      pw_scrape_job_page (some p) url c now sels = none ↔ pwTitle p sels.title = none) ∧
    (∀ (p : Page) (l : List String),
      firstElemText p l = spec_first (fun s => p.select s) (fun _ => true) l) ∧
    (∀ (p : Page) (url c now : String),
      generic_scrape_job_page (some p) url c now = none
        ↔ (firstElemText p generic_title_selectors).getD "" = "") := by
  refine ⟨pwTitle_spec, pwLocation_spec, pwDescription_spec, ?_, firstElemText_spec, ?_⟩
  · intro p url c now sels
    cases hti : pwTitle p sels.title with
    | none => simp [pw_scrape_job_page, hti]
    | some t => simp [pw_scrape_job_page, hti]
  · intro p url c now
    cases hti : firstElemText p generic_title_selectors with
    | none => simp [generic_scrape_job_page, hti]
    | some t =>
      by_cases he : t = ""
      · subst he; simp [generic_scrape_job_page, hti]
      · have hb : (t == "") = false := by simpa using he
        simp [generic_scrape_job_page, hti, hb, he]

/-- Counterexample for C5 as stated: on `pgC5` the first rule yielding a
credible (longer than 3 characters) title is `.job-title` with "Senior
Software Engineer", but the generic parser produces a record whose title is
the noncredible 2-character "ab" from `h1` — the code has no length
threshold and stops at the first matching element. -/
theorem c5_generic_thresholds_counterexample :
    (generic_scrape_job_page (some pgC5) "https://x.com/jobs/9" "ACME" "t0").map Job.title
      = some "ab" ∧
    spec_first (fun s => pgC5.select s) (fun t => t != "" && decide (t.length > 3))
      generic_title_selectors = some "Senior Software Engineer" ∧
    ¬ (("ab" : String).length > 3) := by
  exact ⟨rfl, rfl, by decide⟩

/-! ## C6: bounded description length -/

theorem pwDescription_length_le (p : Page) (l : List String) (d : String)
    (h : pwDescription p l = some d) : d.length ≤ 5000 := by
  induction l with
  | nil => simp [pwDescription] at h
  | cons s rest ih =>
    cases hsel : p.select s with
    | none =>
      simp only [pwDescription, hsel] at h
      exact ih h
    | some raw =>
      cases hc : (raw != "" && decide (raw.length > 50)) with
      | true =>
        simp only [pwDescription, hsel, hc, if_true] at h
        cases Option.some.inj h
        exact strTake_length_le raw 5000
      | false =>
        simp only [pwDescription, hsel, hc, Bool.false_eq_true, if_false] at h
        exact ih h

theorem generic_description_shape (p : Page) (u c n : String) (j : Job)
    (h : generic_scrape_job_page (some p) u c n = some j) :
    j.description = ((firstElemText p generic_description_selectors).map
      (fun t => strTake t 5000)).getD "" := by
  cases hti : firstElemText p generic_title_selectors with
  | none => simp [generic_scrape_job_page, hti] at h
  | some t =>
    cases he : (t == "") with
    | true => simp [generic_scrape_job_page, hti, he] at h
    | false =>
      simp only [generic_scrape_job_page, hti, he, Bool.false_eq_true, if_false,
        Option.some.injEq] at h
      rw [← h]

theorem pw_description_shape (p : Page) (u c n : String) (sels : Selectors) (j : Job)
    (h : pw_scrape_job_page (some p) u c n sels = some j) :
    j.description = (pwDescription p sels.description).getD "" := by
  cases hti : pwTitle p sels.title with
  | none => simp [pw_scrape_job_page, hti] at h
  | some t =>
    simp only [pw_scrape_job_page, hti, Option.some.injEq] at h
    rw [← h]

/-- C6 (amended) — Bounded description length holds for the two parsers of
the scrape_all_sites pipeline: every Job record produced by the generic
parser or by the Playwright parser has a description of at most 5000
characters (truncated with `[:5000]` at parse time).  It does NOT hold for
the USAJobs scraper, which copies the API's JobSummary without truncation
(see the counterexample). -/
theorem c6_description_bounded (pg ppw : Option Page)
    (u1 c1 n1 u2 c2 n2 : String) (sels : Selectors) (j1 j2 : Job)
    (hg : generic_scrape_job_page pg u1 c1 n1 = some j1)
    (hp : pw_scrape_job_page ppw u2 c2 n2 sels = some j2) :
    j1.description.length ≤ 5000 ∧ j2.description.length ≤ 5000 := by
  constructor
  · cases pg with
    | none => simp [generic_scrape_job_page] at hg
    | some p =>
      rw [generic_description_shape p u1 c1 n1 j1 hg]
      cases hd : firstElemText p generic_description_selectors with
      | none => exact Nat.zero_le 5000
      | some t => exact strTake_length_le t 5000
  · cases ppw with
    | none => simp [pw_scrape_job_page] at hp
    | some p =>
      rw [pw_description_shape p u2 c2 n2 sels j2 hp]
      cases hd : pwDescription p sels.description with
      | none => exact Nat.zero_le 5000
      | some d => exact pwDescription_length_le p sels.description d hd

/-- Witness for C6 on a concrete page accepted by both parsers. -/
theorem c6_description_bounded_witness :
    jG6.description.length ≤ 5000 ∧ jP6.description.length ≤ 5000 := by
  exact c6_description_bounded (some pgBoth) (some pgBoth)
    "https://x.com/jobs/2" "ACME" "t0" "https://x.com/jobs/2" "ACME" "t0"
    generic_ats_selectors jG6 jP6 rfl rfl

/-- Counterexample for C6 as stated: the USAJobs scraper (cited by the claim)
yields the API's JobSummary verbatim, so an item whose summary has 5001
characters produces a Job record whose description exceeds 5000 characters —
no truncation is applied on that path. -/
theorem c6_usajobs_counterexample :
    5000 < ((usajobs_item_job "t0"
        ⟨"Analyst", "Washington, DC", longSummary, "https://usajobs.gov/1",
          "2025-01-01"⟩).description).length := by
  show 5000 < (List.replicate 5001 'x').length
  rw [List.length_replicate]
  decide

/-! ## C2: within-run dedup -/

theorem nodup_generic_collect_aux (hrefs : List String) :
    ∀ acc : List String, acc.Nodup →
      (hrefs.foldl
        (fun acc h =>
          if matchesJobPattern h then (if h ∈ acc then acc else acc ++ [h]) else acc)
        acc).Nodup := by
  induction hrefs with
  | nil => intro acc hacc; exact hacc
  | cons a t ih =>
    intro acc hacc
    simp only [List.foldl_cons]
    by_cases hm : matchesJobPattern a = true
    · by_cases hmem : a ∈ acc
      · simp only [hm, if_true, hmem, if_pos]
        exact ih acc hacc
      · simp only [hm, if_true, hmem, if_false]
        refine ih (acc ++ [a]) ?_
        simp [List.nodup_append, hacc, hmem]
    · simp only [hm, Bool.false_eq_true, if_false]
      exact ih acc hacc

theorem nodup_generic_collect (hrefs : List String) :
    (generic_collect_links hrefs).Nodup :=
  nodup_generic_collect_aux hrefs [] List.nodup_nil

theorem nodup_pw_collect (hrefs : List String) :
    ∀ acc : List String, acc.Nodup → (pw_collect_links acc hrefs).Nodup := by
  induction hrefs with
  | nil => intro acc hacc; simpa [pw_collect_links] using hacc
  | cons a t ih =>
    intro acc hacc
    simp only [pw_collect_links]
    by_cases hsoc : social_patterns.any (fun pat => strContains (strLower a) pat) = true
    · simp only [hsoc, if_true]
      exact ih acc hacc
    · simp only [hsoc, Bool.false_eq_true, if_false]
      by_cases hj : (pw_job_patterns.any (fun pat => strContains (strLower a) pat)
          && !(pw_list_page_patterns.any (fun pat => strContains (strLower a) pat))
          && !(acc.contains a)) = true
      · have hmem : a ∉ acc := by
          have := (Bool.and_eq_true _ _).mp hj
          have hc := this.2
          simp only [Bool.not_eq_true'] at hc
          simpa using hc
        have hacc2 : (acc ++ [a]).Nodup := by
          simp [List.nodup_append, hacc, hmem]
        simp only [hj, if_true]
        by_cases hlen : (acc ++ [a]).length ≥ 30
        · simp only [hlen, if_pos]
          exact hacc2
        · simp only [hlen, if_neg, if_false]
          exact ih (acc ++ [a]) hacc2
      · simp only [hj, Bool.false_eq_true, if_false]
        exact ih acc hacc

theorem count_le_one_of_nodup {l : List String} (h : l.Nodup) (u : String) :
    l.count u ≤ 1 :=
  List.nodup_iff_count_le_one.mp h u

theorem generic_fetches_count (s : Site) (u : String) :
    (generic_site_fetches s).count u ≤ 1 := by
  unfold generic_site_fetches
  cases s.hrefs with
  | none => simp
  | some hs =>
    calc ((generic_collect_links hs).take 20).count u
        ≤ (generic_collect_links hs).count u :=
          (List.take_sublist 20 _).count_le u
      _ ≤ 1 := count_le_one_of_nodup (nodup_generic_collect hs) u

theorem pw_fetches_count (s : Site) (u : String) :
    (pw_site_fetches s).count u ≤ 1 := by
  unfold pw_site_fetches
  cases s.hrefs with
  | none => simp
  | some hs =>
    calc ((pw_collect_links [] hs).take 20).count u
        ≤ (pw_collect_links [] hs).count u :=
          (List.take_sublist 20 _).count_le u
      _ ≤ 1 := count_le_one_of_nodup (nodup_pw_collect hs [] List.nodup_nil) u

theorem generic_parse_url (pg : Option Page) (u c n : String) (j : Job)
    (h : generic_scrape_job_page pg u c n = some j) : j.url = u := by
  cases pg with
  | none => simp [generic_scrape_job_page] at h
  | some p =>
    cases hti : firstElemText p generic_title_selectors with
    | none => simp [generic_scrape_job_page, hti] at h
    | some t =>
      cases he : (t == "") with
      | true => simp [generic_scrape_job_page, hti, he] at h
      | false =>
        simp only [generic_scrape_job_page, hti, he, Bool.false_eq_true, if_false,
          Option.some.injEq] at h
        rw [← h]

theorem pw_parse_url (pg : Option Page) (u c n : String) (sels : Selectors) (j : Job)
    (h : pw_scrape_job_page pg u c n sels = some j) : j.url = u := by
  cases pg with
  | none => simp [pw_scrape_job_page] at h
  | some p =>
    cases hti : pwTitle p sels.title with
    | none => simp [pw_scrape_job_page, hti] at h
    | some t =>
      simp only [pw_scrape_job_page, hti, Option.some.injEq] at h
      rw [← h]

theorem countP_url_filterMap (f : String → Option Job)
    (hf : ∀ u j, f u = some j → j.url = u) (l : List String) (u : String) :
    (l.filterMap f).countP (fun j => j.url == u) ≤ l.count u := by
  induction l with
  | nil => simp
  | cons a t ih =>
    rw [List.filterMap_cons]
    cases hfa : f a with
    | none =>
      refine le_trans ih ?_
      rw [List.count_cons]
      split <;> omega
    | some j =>
      have hju : j.url = a := hf a j hfa
      rw [List.countP_cons, List.count_cons]
      by_cases hb : (a == u) = true
      · have hjb : (j.url == u) = true := by rw [hju]; exact hb
        simp only [hjb, if_true, hb]
        omega
      · have hjb : (j.url == u) = false := by
          rw [hju]; simpa using hb
        simp only [hjb, Bool.false_eq_true, if_false]
        have hb2 : (a == u) = false := by simpa using hb
        simp only [hb2, Bool.false_eq_true, if_false]
        omega

/-- C2 (amended) — Within-run deduplication is per source, not global: in one
run of `scrape_all_sites`, a given URL is fetched at most once and yielded
at most once WITHIN each source (candidate links are deduplicated by the
`job_links` membership check of each scrape_site), but the orchestrator
keeps no cross-source seen-URL set, so the same URL discovered under two
different configured sources is fetched and yielded once per source (see
the counterexample). -/
theorem c2_per_source_dedup (now : String) (pw_available : Bool) (s : Site)
    (u : String) :
    (site_fetches pw_available s).count u ≤ 1 ∧
    (site_contribution now pw_available s).countP (fun j => j.url == u) ≤ 1 := by
  constructor
  · unfold site_fetches
    by_cases hfail : s.fails = true
    · simp [hfail]
    · simp only [hfail, Bool.false_eq_true, if_false]
      by_cases hjs : (js_heavy_types.contains s.site_type && pw_available) = true
      · simp only [hjs, if_true]
        exact pw_fetches_count s u
      · simp only [hjs, Bool.false_eq_true, if_false]
        exact generic_fetches_count s u
  · unfold site_contribution
    by_cases hfail : s.fails = true
    · simp [hfail]
    · simp only [hfail, Bool.false_eq_true, if_false]
      refine le_trans ((List.filter_sublist _).countP_le _) ?_
      unfold site_raw_jobs
      by_cases hjs : (js_heavy_types.contains s.site_type && pw_available) = true
      · simp only [hjs, if_true]
        refine le_trans
          (countP_url_filterMap _
            (fun v j h => pw_parse_url (pageAt s.pages v) v s.name now _ j h) _ u) ?_
        exact pw_fetches_count s u
      · simp only [hjs, Bool.false_eq_true, if_false]
        refine le_trans
          (countP_url_filterMap _
            (fun v j h => generic_parse_url (pageAt s.pages v) v s.name now j h) _ u) ?_
        exact generic_fetches_count s u

/-- Counterexample for C2 as stated: with two configured sources discovering
the same URL, one run of scrape_all_sites fetches that URL twice and yields
it twice — there is no cross-source seen-URL set. -/
theorem c2_cross_source_counterexample :
    (run_fetches false [siteA, siteB]).count "https://x.com/jobs/1" = 2 ∧
    ((scrape_all_sites "t0" false [siteA, siteB]).1).countP
      (fun j => j.url == "https://x.com/jobs/1") = 2 ∧
    ¬ (2 ≤ 1) := by
  exact ⟨rfl, rfl, by decide⟩

/-! ## C3 and C7: orchestrator loop -/

theorem scrape_all_sites_foldl (now : String) (pw_available : Bool) :
    ∀ (sites : List Site) (acc : List Job × List String),
      sites.foldl
        (fun acc s =>
          if s.fails then (acc.1, acc.2 ++ [s.name])
          else (acc.1 ++ site_contribution now pw_available s, acc.2)) acc
      = (acc.1 ++ (sites.map (site_contribution now pw_available)).flatten,
         acc.2 ++ (sites.filter (fun s => s.fails)).map (fun s => s.name)) := by
  intro sites
  induction sites with
  | nil => intro acc; simp
  | cons s t ih =>
    intro acc
    simp only [List.foldl_cons]
    by_cases hfail : s.fails = true
    · rw [if_pos hfail, ih]
      have hcontrib : site_contribution now pw_available s = [] := by
        simp [site_contribution, hfail]
      simp [hcontrib, hfail]
    · rw [if_neg hfail, ih]
      simp [hfail, List.append_assoc]

theorem scrape_all_sites_spec (now : String) (pw_available : Bool)
    (sites : List Site) :
    scrape_all_sites now pw_available sites
      = ((sites.map (site_contribution now pw_available)).flatten,
         (sites.filter (fun s => s.fails)).map (fun s => s.name)) := by
  have h := scrape_all_sites_foldl now pw_available sites ([], [])
  simpa [scrape_all_sites] using h

theorem site_contribution_length_le (now : String) (pw_available : Bool) (s : Site) :
    (site_contribution now pw_available s).length ≤ 20 := by
  unfold site_contribution
  by_cases hfail : s.fails = true
  · simp [hfail]
  · simp only [hfail, Bool.false_eq_true, if_false]
    refine le_trans (List.length_filter_le _ _) ?_
    unfold site_raw_jobs
    by_cases hjs : (js_heavy_types.contains s.site_type && pw_available) = true
    · simp only [hjs, if_true]
      unfold pw_site_jobs
      refine le_trans (List.length_filterMap_le _ _) ?_
      unfold pw_site_fetches
      cases s.hrefs with
      | none => simp
      | some hs => exact List.length_take_le 20 _
    · simp only [hjs, Bool.false_eq_true, if_false]
      unfold generic_site_jobs
      refine le_trans (List.length_filterMap_le _ _) ?_
      unfold generic_site_fetches
      cases s.hrefs with
      | none => simp
      | some hs => exact List.length_take_le 20 _

/-- C3 (amended) — There is no global cap in `scrape_all_sites`: the only cap
is per source, namely at most 20 detail pages (`job_links[:20]`) and hence
at most 20 yielded jobs per configured source, so a run yields at most
`20 * number of sources` jobs in total; a configuration with enough sources
exceeds 500 yielded jobs (see the counterexample). -/
theorem c3_per_source_bound (now : String) (pw_available : Bool)
    (sites : List Site) :
    (scrape_all_sites now pw_available sites).1.length ≤ 20 * sites.length := by
  rw [scrape_all_sites_spec]
  show ((sites.map (site_contribution now pw_available)).flatten).length
    ≤ 20 * sites.length
  rw [List.length_flatten, List.map_map]
  have hle : ∀ x ∈ sites.map (List.length ∘ site_contribution now pw_available),
      x ≤ 20 := by
    intro x hx
    obtain ⟨s, _, rfl⟩ := List.mem_map.mp hx
    exact site_contribution_length_le now pw_available s
  calc (sites.map (List.length ∘ site_contribution now pw_available)).sum
      ≤ (sites.map (List.length ∘ site_contribution now pw_available)).length • 20 :=
        List.sum_le_card_nsmul _ 20 hle
    _ = 20 * sites.length := by
        simp [List.length_map, smul_eq_mul, Nat.mul_comm]
    

/-- Counterexample for C3 as stated: a run over 26 sources of 20 jobs each
yields 520 jobs — more than the claimed cap of 500, because scrape_all_sites
has no global cap at all. -/
theorem c3_no_global_cap_counterexample :
    500 < ((scrape_all_sites "t0" false (List.replicate 26 bigSite)).1).length := by
  have h1 : (scrape_all_sites "t0" false (List.replicate 26 bigSite)).1
      = ((List.replicate 26 bigSite).map (site_contribution "t0" false)).flatten := by
    rw [scrape_all_sites_spec]
  have h20 : (site_contribution "t0" false bigSite).length = 20 := by rfl
  rw [h1, List.map_replicate, List.length_flatten, List.map_replicate, h20,
    List.sum_replicate, smul_eq_mul]
  decide

/-- C7 — Per-source isolation: one run of scrape_all_sites yields exactly the
concatenation of the per-site contributions in configuration order (a
failing site contributing nothing), its error log is exactly the names of
the failing sites, every location-eligible job of every non-failing site
appears in the output (sites after a failing one included — the caught
exception never terminates the run early), and every failing site's name is
recorded. -/
theorem c7_source_isolation (now : String) (pw_available : Bool)
    (sites : List Site) :
    (scrape_all_sites now pw_available sites).1
      = (sites.map (site_contribution now pw_available)).flatten ∧
    (scrape_all_sites now pw_available sites).2
      = (sites.filter (fun s => s.fails)).map (fun s => s.name) ∧
    (∀ s ∈ sites, s.fails = false →
      ∀ j ∈ (site_raw_jobs now pw_available s).filter
        (fun x => is_location_match x.location),
      j ∈ (scrape_all_sites now pw_available sites).1) ∧
    (∀ s ∈ sites, s.fails = true →
      s.name ∈ (scrape_all_sites now pw_available sites).2) := by
  have hspec := scrape_all_sites_spec now pw_available sites
  have h1 : (scrape_all_sites now pw_available sites).1
      = (sites.map (site_contribution now pw_available)).flatten := by
    rw [hspec]
  have h2 : (scrape_all_sites now pw_available sites).2
      = (sites.filter (fun s => s.fails)).map (fun s => s.name) := by
    rw [hspec]
  refine ⟨h1, h2, ?_, ?_⟩
  · intro s hs hfail j hj
    rw [h1]
    apply List.mem_flatten.mpr
    refine ⟨site_contribution now pw_available s, List.mem_map_of_mem _ hs, ?_⟩
    have : site_contribution now pw_available s
        = (site_raw_jobs now pw_available s).filter
            (fun x => is_location_match x.location) := by
      simp [site_contribution, hfail]
    rw [this]
    exact hj
  · intro s hs hfail
    rw [h2]
    exact List.mem_map_of_mem _ (List.mem_filter.mpr ⟨hs, hfail⟩)

/-- Witness for C7: with the middle source failing, the job of the LAST
source still appears in the run's output and the failing source's name is
recorded in the error log. -/
theorem c7_source_isolation_witness :
    jobB ∈ (scrape_all_sites "t0" false [siteA, failSite, siteB]).1 ∧
    "Gamma" ∈ (scrape_all_sites "t0" false [siteA, failSite, siteB]).2 := by
  have h := c7_source_isolation "t0" false [siteA, failSite, siteB]
  constructor
  · exact h.2.2.1 siteB (by decide) rfl jobB (by decide)
  · exact h.2.2.2 failSite (by decide) rfl

/-! ## C8: rate limiter -/

theorem lookupTime_set_self (d : String) (t : ℚ) :
    ∀ m : List (String × ℚ), lookupTime (setTime m d t) d = some t := by
  intro m
  induction m with
  | nil => simp [setTime, lookupTime]
  | cons q rest ih =>
    by_cases hq : (q.1 == d) = true
    · simp [setTime, lookupTime, hq, List.find?_cons]
    · simp only [setTime, hq, Bool.false_eq_true, if_false]
      simpa [lookupTime, List.find?_cons, hq] using ih

theorem lookupTime_set_other (d d2 : String) (t : ℚ) (hne : d2 ≠ d) :
    ∀ m : List (String × ℚ), lookupTime (setTime m d t) d2 = lookupTime m d2 := by
  have hdd2 : (d == d2) = false := by
    simpa using fun h => hne h.symm
  intro m
  induction m with
  | nil => simp [setTime, lookupTime, List.find?_cons, hdd2]
  | cons q rest ih =>
    by_cases hq : (q.1 == d) = true
    · have hq2 : (q.1 == d2) = false := by
        have : q.1 = d := by simpa using hq
        rw [this]; exact hdd2
      simp [setTime, lookupTime, hq, hq2, List.find?_cons, hdd2]
    · simp only [setTime, hq, Bool.false_eq_true, if_false]
      by_cases hq2 : (q.1 == d2) = true
      · simp [lookupTime, List.find?_cons, hq2]
      · have hq2f : (q.1 == d2) = false := by simpa using hq2
        simpa [lookupTime, List.find?_cons, hq2f] using ih

theorem rate_limit_ge (now t : ℚ) (m : List (String × ℚ)) (d : String)
    (ht : lookupTime m d = some t) :
    REQUEST_DELAY ≤ (rate_limit now m d).1 - t := by
  show REQUEST_DELAY ≤
    (match lookupTime m d with
      | some t0 => if now - t0 < REQUEST_DELAY then t0 + REQUEST_DELAY else now
      | none => now) - t
  rw [ht]
  show REQUEST_DELAY ≤ (if now - t < REQUEST_DELAY then t + REQUEST_DELAY else now) - t
  by_cases hlt : now - t < REQUEST_DELAY
  · rw [if_pos hlt]
    ring_nf
    exact le_refl _
  · rw [if_neg hlt]
    linarith

/-- C8 — Rate limiter contract of `_rate_limit`: when the domain has a
recorded last access `t`, the call exits no earlier than `t + REQUEST_DELAY`
(sleeping exactly the remainder when needed); the exit time is recorded as
the domain's new last access; entries of other domains are untouched; the
exit time depends only on the entry of the requested domain (so acquiring
one domain never delays another); and a second acquisition for the same
domain again exits at least `REQUEST_DELAY` after the recorded time of the
first. -/
theorem c8_rate_limit (now : ℚ) (m : List (String × ℚ)) (d : String) :
    (∀ t, lookupTime m d = some t →
      REQUEST_DELAY ≤ (rate_limit now m d).1 - t) ∧
    lookupTime (rate_limit now m d).2 d = some (rate_limit now m d).1 ∧
    (∀ d2, d2 ≠ d → lookupTime (rate_limit now m d).2 d2 = lookupTime m d2) ∧
    (∀ m2, lookupTime m2 d = lookupTime m d →
      (rate_limit now m2 d).1 = (rate_limit now m d).1) ∧
    (∀ now2, REQUEST_DELAY ≤
      (rate_limit now2 (rate_limit now m d).2 d).1 - (rate_limit now m d).1) := by
  refine ⟨?_, ?_, ?_, ?_, ?_⟩
  · intro t ht
    exact rate_limit_ge now t m d ht
  · exact lookupTime_set_self d _ m
  · intro d2 hne
    exact lookupTime_set_other d d2 _ hne m
  · intro m2 hm
    show (match lookupTime m2 d with
        | some t0 => if now - t0 < REQUEST_DELAY then t0 + REQUEST_DELAY else now
        | none => now)
      = (match lookupTime m d with
        | some t0 => if now - t0 < REQUEST_DELAY then t0 + REQUEST_DELAY else now
        | none => now)
    rw [hm]
  · intro now2
    exact rate_limit_ge now2 _ _ d (lookupTime_set_self d _ m)

/-- Witness for C8 on concrete state: domain "a" last accessed at time 9,
acquired again at time 10 with a 2-second delay — the call exits at 11,
records 11 for "a", leaves "b" alone, and computes the same exit time on
any map agreeing on "a". -/
theorem c8_rate_limit_witness :
    REQUEST_DELAY ≤ (rate_limit 10 [("a", 9)] "a").1 - 9 ∧
    lookupTime (rate_limit 10 [("a", 9)] "a").2 "a"
      = some (rate_limit 10 [("a", 9)] "a").1 ∧
    lookupTime (rate_limit 10 [("a", 9)] "a").2 "b" = lookupTime [("a", 9)] "b" ∧
    (rate_limit 10 [("a", 9), ("c", 3)] "a").1 = (rate_limit 10 [("a", 9)] "a").1 ∧
    REQUEST_DELAY ≤
      (rate_limit 5 (rate_limit 10 [("a", 9)] "a").2 "a").1
        - (rate_limit 10 [("a", 9)] "a").1 := by
  have h := c8_rate_limit 10 [("a", 9)] "a"
  exact ⟨h.1 9 rfl, h.2.1, h.2.2.1 "b" (by decide), h.2.2.2.1 [("a", 9), ("c", 3)] rfl,
    h.2.2.2.2 5⟩
